import Mathlib

/-!
Shallow embedding of the dosage-calculation engine of this repository
(the calculator section of plant-utils.js: calculateMix, calculateGranular,
formatMixResultsHTML, formatGranularResultsHTML) together with proofs of
the specified properties.

Modelling conventions:
* A JavaScript number is modelled by an idealized numeric type JSNum: an
  exact rational, NaN, or a signed infinity.  Rational arithmetic is exact
  where the engine multiplies and divides; the special values follow the
  IEEE rules JavaScript uses (NaN propagates, NaN comparisons are false,
  infinity times a nonzero finite number is a signed infinity).
* An argument or object field that may be absent (undefined) is an Option.
* JavaScript truthiness is made explicit: a number is falsy exactly when
  it is 0 or NaN; undefined is falsy; a string is falsy exactly when empty.
* The formatter functions return Option String: none models the TypeError
  a real run throws when the error field is the empty string (falsy), so
  control falls through to field accesses on an object that lacks them.
-/

/-- An idealized JavaScript number: an exact rational, NaN, or ±Infinity. -/
inductive JSNum where
  | num (q : ℚ)
  | nan
  | posInf
  | negInf
  deriving DecidableEq

namespace JSNum

/-- JavaScript truthiness of a number: false exactly for 0 and NaN. -/
def truthy : JSNum → Bool
  | .num q => if q = 0 then false else true
  | .nan => false
  | .posInf => true
  | .negInf => true

/-- The JavaScript comparison x <= 0 (false on NaN). -/
def leZero : JSNum → Bool
  | .num q => if q ≤ 0 then true else false
  | .nan => false
  | .posInf => false
  | .negInf => true

/-- The JavaScript isNaN test on a number. -/
def isNaN : JSNum → Bool
  | .nan => true
  | _ => false

/-- True exactly on finite (non-NaN, non-infinite) numbers. -/
def isFin : JSNum → Bool
  | .num _ => true
  | _ => false

/-- JavaScript multiplication on idealized numbers: NaN propagates,
infinity times zero is NaN, infinity times a nonzero finite number is a
signed infinity.  (The model has a single zero, so the sign of zero is not
tracked.) -/
def mul : JSNum → JSNum → JSNum
  | .nan, _ => .nan
  | .num _, .nan => .nan
  | .posInf, .nan => .nan
  | .negInf, .nan => .nan
  | .num a, .num b => .num (a * b)
  | .num a, .posInf => if 0 < a then .posInf else if a < 0 then .negInf else .nan
  | .num a, .negInf => if 0 < a then .negInf else if a < 0 then .posInf else .nan
  | .posInf, .num b => if 0 < b then .posInf else if b < 0 then .negInf else .nan
  | .negInf, .num b => if 0 < b then .negInf else if b < 0 then .posInf else .nan
  | .posInf, .posInf => .posInf
  | .posInf, .negInf => .negInf
  | .negInf, .posInf => .negInf
  | .negInf, .negInf => .posInf

/-- Division by the literal constant 1000 (areaSqFt / 1000 in the source). -/
def div1000 : JSNum → JSNum
  | .num q => .num (q / 1000)
  | .nan => .nan
  | .posInf => .posInf
  | .negInf => .negInf

end JSNum

/-- Floor of a rational as an integer (used to express decimal rounding). -/
def ratFloor (q : ℚ) : Int :=
  Int.fdiv q.num q.den

/-- Render a scaled integer n as a decimal string with f fractional digits
(n is the value multiplied by 10 ^ f). -/
def fixedString (n : Int) (f : Nat) : String :=
  if f = 0 then toString n
  else
    let sign := if n < 0 then "-" else ""
    let m := n.natAbs
    let ip := m / 10 ^ f
    let fp := m % 10 ^ f
    let fpStr := toString fp
    let pad := String.mk (List.replicate (f - fpStr.length) '0')
    sign ++ toString ip ++ "." ++ pad ++ fpStr

namespace JSNum

/-- The JavaScript Number.prototype.toFixed, on the idealized model: exact
decimal rounding to f digits, ties going to the larger scaled integer. -/
def toFixed (x : JSNum) (f : Nat) : String :=
  match x with
  | .num q => fixedString (ratFloor (q * (10 : ℚ) ^ f + 1 / 2)) f
  | .nan => "NaN"
  | .posInf => "Infinity"
  | .negInf => "-Infinity"

/-- Rendering of a number by string interpolation.  Integers render as in
JavaScript; a non-integral rational renders as a fraction (a presentation
convention of the model — no verified property depends on this case). -/
def toStr : JSNum → String
  | .num q => if q.den = 1 then toString q.num else toString q.num ++ "/" ++ toString q.den
  | .nan => "NaN"
  | .posInf => "Infinity"
  | .negInf => "-Infinity"

end JSNum

/-- A JavaScript value as far as the engine inspects one: undefined, a
number, or a value of some other runtime type (represented by a string,
the only fact the engine uses being that its typeof is not "number"). -/
inductive JSVal where
  | undef
  | number (n : JSNum)
  | str (s : String)
  deriving DecidableEq

/-- One chemical/product record as consumed by calculateMix. -/
structure Chemical where
  id : String
  name : String
  defaultRatePerGallon : JSVal
  mixRate : Option String
  deriving DecidableEq

/-- One entry of mixItems: either a computed item (hasStoredRate true,
carrying ratePerGallon, flOz and ml) or a fallback item (hasStoredRate
false, carrying labelRate). -/
inductive MixItem where
  | computed (id name : String) (ratePerGallon flOz ml : JSNum)
  | fallback (id name labelRate : String)
  deriving DecidableEq

namespace MixItem

def id : MixItem → String
  | .computed i _ _ _ _ => i
  | .fallback i _ _ => i

def name : MixItem → String
  | .computed _ n _ _ _ => n
  | .fallback _ n _ => n

def hasStoredRate : MixItem → Bool
  | .computed _ _ _ _ _ => true
  | .fallback _ _ _ => false

/-- All numeric fields of the item are finite non-NaN numbers. -/
def numbersFin : MixItem → Bool
  | .computed _ _ r f m => r.isFin && f.isFin && m.isFin
  | .fallback _ _ _ => true

end MixItem

/-- The success shape returned by calculateMix. -/
structure MixSuccess where
  tankSize : JSNum
  sprayVolume : JSNum
  estimatedCoverageSqFt : JSNum
  mixItems : List MixItem
  mixText : String
  deriving DecidableEq

/-- Result of calculateMix: an error object or a success object. -/
inductive MixResult where
  | error (error : String)
  | ok (r : MixSuccess)
  deriving DecidableEq

/-- The success shape returned by calculateGranular. -/
structure GranularSuccess where
  productName : String
  areaSqFt : JSNum
  areaThousands : JSNum
  ratePerThousandSqFt : JSNum
  totalLbs : JSNum
  deriving DecidableEq

/-- Result of calculateGranular: an error object or a success object. -/
inductive GranularResult where
  | error (error : String)
  | ok (r : GranularSuccess)
  deriving DecidableEq

/-- Constant FL_OZ_TO_ML = 29.57 of the source. -/
def FL_OZ_TO_ML : JSNum := .num (2957 / 100)

/-- Constant SPRAY_VOLUME_PER_1000_SQFT = 1 of the source. -/
def SPRAY_VOLUME_PER_1000_SQFT : JSNum := .num 1

/-- JavaScript a || b where a is an optional string: b when a is absent or
empty (falsy), a otherwise. -/
def jsOrDefault (a : Option String) (b : String) : String :=
  match a with
  | some s => if s = "" then b else s
  | none => b

/-- The body of the forEach loop of calculateMix: the single mixItems entry
pushed for one chemical.  A rate whose typeof is not "number", or that
compares <= 0, routes to the fallback item; any other number (including
NaN, for which the comparison NaN <= 0 is false) routes to the computed
item. -/
def mixItemFor (tank : JSNum) (chem : Chemical) : MixItem :=
  match chem.defaultRatePerGallon with
  | .number r =>
    if r.leZero then
      .fallback chem.id chem.name
        (jsOrDefault chem.mixRate "Check the product label for exact rates.")
    else
      .computed chem.id chem.name r (JSNum.mul r tank)
        (JSNum.mul (JSNum.mul r tank) FL_OZ_TO_ML)
  | _ =>
    .fallback chem.id chem.name
      (jsOrDefault chem.mixRate "Check the product label for exact rates.")

/-- The line of mixText produced for one computed item; mixText maps this
over the items that have a stored rate only, so the fallback branch is
never reached there. -/
def mixLine : MixItem → String
  | .computed _ n rate flOz ml =>
      n ++ ": " ++ flOz.toFixed 2 ++ " fl oz (~" ++ ml.toFixed 0 ++ " mL) at "
        ++ rate.toStr ++ " fl oz/gal"
  | .fallback _ _ _ => ""

/-- mixText: the newline-joined lines of the computed items. -/
def mixTextOf (items : List MixItem) : String :=
  String.intercalate "\n" ((items.filter MixItem.hasStoredRate).map mixLine)

/-- calculateMix of the source.  The first argument is the tank size (none
models an absent/undefined argument, which the source's !tankSizeGallons
test sends to the same first error); the second is the chemicals argument
(none models a non-array value, which fails the Array.isArray test).  The
forEach/push loop is embedded as a left fold appending one item per
chemical. -/
def calculateMix (tankSizeGallons : Option JSNum)
    (chemicalsData : Option (List Chemical)) : MixResult :=
  match tankSizeGallons with
  | none => .error "Enter a valid tank size in gallons."
  | some tank =>
    if !tank.truthy || tank.leZero then
      .error "Enter a valid tank size in gallons."
    else
      match chemicalsData with
      | none => .error "Select at least one chemical."
      | some chems =>
        if chems.length = 0 then
          .error "Select at least one chemical."
        else
          let estimatedCoverageSqFt := JSNum.mul tank (.num 1000)
          let mixItems := chems.foldl (fun acc chem => acc ++ [mixItemFor tank chem]) []
          .ok {
            tankSize := tank
            sprayVolume := SPRAY_VOLUME_PER_1000_SQFT
            estimatedCoverageSqFt := estimatedCoverageSqFt
            mixItems := mixItems
            mixText := mixTextOf mixItems
          }

/-- calculateGranular of the source.  none models an absent argument.  The
productName parameter defaults to the empty string as in the source. -/
def calculateGranular (areaSqFt ratePerThousandSqFt : Option JSNum)
    (productName : String := "") : GranularResult :=
  match areaSqFt with
  | none => .error "Enter a valid area in square feet."
  | some area =>
    if !area.truthy || area.leZero then
      .error "Enter a valid area in square feet."
    else
      match ratePerThousandSqFt with
      | none =>
        .error "No stored application rate for the selected product. Please refer to the product label."
      | some rate =>
        if !rate.truthy || rate.leZero || rate.isNaN then
          .error "No stored application rate for the selected product. Please refer to the product label."
        else
          let areaThousands := area.div1000
          .ok {
            productName := productName
            areaSqFt := area
            areaThousands := areaThousands
            ratePerThousandSqFt := rate
            totalLbs := JSNum.mul areaThousands rate
          }

/-- All numeric fields of a mix success result are finite non-NaN. -/
def mixNumbersFin (r : MixSuccess) : Bool :=
  r.tankSize.isFin && r.sprayVolume.isFin && r.estimatedCoverageSqFt.isFin
    && r.mixItems.all MixItem.numbersFin

/-- All numeric fields of a granular success result are finite non-NaN. -/
def granularNumbersFin (r : GranularSuccess) : Bool :=
  r.areaSqFt.isFin && r.areaThousands.isFin && r.ratePerThousandSqFt.isFin
    && r.totalLbs.isFin

/-- The list item rendered by formatMixResultsHTML for one mixItems entry
(transcribing the template literals of the source, including their
whitespace). -/
def mixItemHTML : MixItem → String
  | .fallback _ n labelRate => "<li>" ++ n ++ ": " ++ labelRate ++ "</li>"
  | .computed _ n rate flOz ml =>
      "<li>\n        " ++ n ++ ": " ++ flOz.toFixed 2 ++ " fl oz (≈ "
        ++ ml.toFixed 0 ++ " mL)\n        at " ++ rate.toStr
        ++ " fl oz per gal.\n      </li>"

/-- formatMixResultsHTML of the source.  On an error result the error
string is returned verbatim when truthy (non-empty); an empty error string
is falsy, so the source falls through to the success rendering and throws
a TypeError on the fields the error object lacks — modelled by none. -/
def formatMixResultsHTML : MixResult → Option String
  | .error e => if e = "" then none else some e
  | .ok r =>
    let head := "\n    <p><strong>Tank size:</strong> " ++ r.tankSize.toStr
      ++ " gallons</p>\n    <p><strong>Spray volume:</strong> " ++ r.sprayVolume.toStr
      ++ " gal per 1,000 sq ft</p>\n    <p><strong>Estimated coverage:</strong> "
      ++ r.estimatedCoverageSqFt.toFixed 0 ++ " sq ft</p>\n  "
    let head := head ++ "<p><strong>Chemicals and amounts:</strong></p><ul>"
    let body := r.mixItems.foldl (fun h item => h ++ mixItemHTML item) head
    some (body ++ "</ul>")

/-- The paragraph rendered for the product name by
formatGranularResultsHTML when productName is truthy. -/
def productLineHTML (productName : String) : String :=
  "<p><strong>Product:</strong> " ++ productName ++ "</p>"

/-- The area/rate/total body rendered by formatGranularResultsHTML for
every success result (transcribing the template literal of the source). -/
def granularBodyHTML (r : GranularSuccess) : String :=
  "\n    <p><strong>Area:</strong> " ++ r.areaSqFt.toFixed 0 ++ " sq ft ("
    ++ r.areaThousands.toFixed 2 ++ " × 1,000 sq ft)</p>\n    <p><strong>Rate:</strong> "
    ++ r.ratePerThousandSqFt.toStr
    ++ " lbs per 1,000 sq ft</p>\n    <p><strong>Total product needed:</strong> "
    ++ r.totalLbs.toFixed 2 ++ " lbs</p>\n  "

/-- formatGranularResultsHTML of the source.  Error handling as in
formatMixResultsHTML; on success the product paragraph is included exactly
when productName is truthy (non-empty). -/
def formatGranularResultsHTML : GranularResult → Option String
  | .error e => if e = "" then none else some e
  | .ok r =>
    let head := if r.productName = "" then "" else productLineHTML r.productName
    some (head ++ granularBodyHTML r)

/-! ## General lemmas about the embedding -/

/-- The forEach/push loop, as a fold, builds the map of the loop body. -/
theorem foldl_push_eq_map {α β : Type} (f : α → β) (l : List α) (acc : List β) :
    l.foldl (fun a c => a ++ [f c]) acc = acc ++ l.map f := by
  induction l generalizing acc with
  | nil => simp
  | cons x xs ih => simp [List.foldl_cons, ih]

/-- Evaluation of calculateMix on a positive finite tank size and a
non-empty chemicals list: the success record, with mixItems the map of the
per-chemical item over the input list. -/
theorem calculateMix_pos (g : ℚ) (hg : 0 < g) (chems : List Chemical) (hne : chems ≠ []) :
    calculateMix (some (.num g)) (some chems) =
      .ok { tankSize := .num g
            sprayVolume := .num 1
            estimatedCoverageSqFt := .num (g * 1000)
            mixItems := chems.map (mixItemFor (.num g))
            mixText := mixTextOf (chems.map (mixItemFor (.num g))) } := by
  have h0 : ¬ g = 0 := ne_of_gt hg
  have h1 : ¬ g ≤ 0 := not_le.mpr hg
  simp [calculateMix, JSNum.truthy, JSNum.leZero, h0, h1, hne, JSNum.mul,
    foldl_push_eq_map, SPRAY_VOLUME_PER_1000_SQFT, List.length_eq_zero]

/-- Both constructors of a mix item carry the id of the chemical. -/
theorem mixItemFor_id (t : JSNum) (c : Chemical) : (mixItemFor t c).id = c.id := by
  cases hv : c.defaultRatePerGallon with
  | number n => by_cases h : n.leZero = true <;> simp [mixItemFor, hv, h, MixItem.id]
  | undef => simp [mixItemFor, hv, MixItem.id]
  | str s => simp [mixItemFor, hv, MixItem.id]

/-- The fallback label is never the empty string. -/
theorem jsOrDefault_label_ne_empty (m : Option String) :
    jsOrDefault m "Check the product label for exact rates." ≠ "" := by
  cases m with
  | none => simp [jsOrDefault]
  | some s =>
    by_cases h : s = "" <;> simp [jsOrDefault, h]

/-! ## The claims -/

/-- C1: for every strictly-positive tank size g and every product whose
defaultRatePerGallon is a strictly-positive number r, the corresponding
mixItems entry of calculateMix is a computed item with flOz = r * g
exactly, ml = flOz * 29.57, ratePerGallon = r and hasStoredRate true; the
result carries sprayVolume = 1 and estimatedCoverageSqFt = g * 1000
independent of which products are selected. -/
theorem claim_C1 (g r : ℚ) (hg : 0 < g) (chems : List Chemical) (i : Nat)
    (hi : i < chems.length)
    (hr : chems[i].defaultRatePerGallon = .number (.num r))
    (hrpos : 0 < r) :
    ∃ res, calculateMix (some (.num g)) (some chems) = .ok res ∧
      res.sprayVolume = .num 1 ∧
      res.estimatedCoverageSqFt = .num (g * 1000) ∧
      res.mixItems[i]? = some (.computed chems[i].id chems[i].name
        (.num r) (.num (r * g)) (.num (r * g * (2957 / 100)))) := by
  have hne : chems ≠ [] := by
    intro h
    rw [h] at hi
    simp at hi
  refine ⟨_, calculateMix_pos g hg chems hne, rfl, rfl, ?_⟩
  have hget : chems[i]? = some chems[i] := List.getElem?_eq_getElem hi
  simp [List.getElem?_map, hget, mixItemFor, hr, JSNum.leZero, not_le.mpr hrpos,
    JSNum.mul, FL_OZ_TO_ML]

/-- Witness for C1 at tank size 25 and the single product of the unit
tests, whose stored rate is 2.5 fl oz per gallon. -/
theorem claim_C1_witness :
    ∃ res, calculateMix (some (.num 25))
        (some [{ id := "chem1", name := "Test Chemical",
                 defaultRatePerGallon := .number (.num (5 / 2)),
                 mixRate := some "2.5 fl oz/gal" }]) = .ok res ∧
      res.sprayVolume = .num 1 ∧
      res.estimatedCoverageSqFt = .num (25 * 1000) ∧
      res.mixItems[0]? = some (.computed "chem1" "Test Chemical"
        (.num (5 / 2)) (.num (5 / 2 * 25)) (.num (5 / 2 * 25 * (2957 / 100)))) :=
  claim_C1 25 (5 / 2) (by norm_num) _ 0 (by simp) rfl (by norm_num)

/-- C5: an absent, zero or negative tank size yields the tank-size error,
regardless of the product list. -/
theorem claim_C5 (t : Option JSNum) (chems : Option (List Chemical))
    (ht : t = none ∨ (∃ q, t = some (.num q) ∧ q ≤ 0) ∨ t = some .negInf) :
    calculateMix t chems = .error "Enter a valid tank size in gallons." := by
  rcases ht with rfl | ⟨q, rfl, hq⟩ | rfl
  · rfl
  · by_cases h : q = 0 <;> simp [calculateMix, JSNum.truthy, JSNum.leZero, h, hq]
  · rfl

/-- Witness for C5: tank size 0 together with an (also invalid) empty
product list still reports the tank-size error. -/
theorem claim_C5_witness :
    calculateMix (some (.num 0)) (some []) = .error "Enter a valid tank size in gallons." :=
  claim_C5 (some (.num 0)) (some []) (.inr (.inl ⟨0, rfl, le_refl 0⟩))

/-- C6: a valid (strictly-positive) tank size with an empty product
sequence yields the select-a-chemical error. -/
theorem claim_C6 (g : ℚ) (hg : 0 < g) :
    calculateMix (some (.num g)) (some []) = .error "Select at least one chemical." := by
  simp [calculateMix, JSNum.truthy, JSNum.leZero, ne_of_gt hg, not_le.mpr hg]

/-- Witness for C6 at tank size 25. -/
theorem claim_C6_witness :
    calculateMix (some (.num 25)) (some []) = .error "Select at least one chemical." :=
  claim_C6 25 (by norm_num)

/-- C9: on a result carrying a non-empty error string, both formatters
return exactly that string. -/
theorem claim_C9 (X : String) (hX : X ≠ "") :
    formatMixResultsHTML (.error X) = some X ∧
    formatGranularResultsHTML (.error X) = some X := by
  constructor <;> simp [formatMixResultsHTML, formatGranularResultsHTML, hX]

/-- Witness for C9 at the error string of the unit tests. -/
theorem claim_C9_witness :
    formatMixResultsHTML (.error "Test error") = some "Test error" ∧
    formatGranularResultsHTML (.error "Test error") = some "Test error" :=
  claim_C9 "Test error" (by decide)

unseal Rat.mul Rat.inv Rat.add Rat.sub Rat.ofScientific in
/-- C2 counterexample: a product whose defaultRatePerGallon is NaN is NOT
routed to the fallback entry: the typeof test accepts NaN and the
comparison NaN <= 0 is false, so the computed branch runs and emits an
item with hasStoredRate true whose amounts are NaN. -/
theorem claim_C2_counterexample :
    ∃ res, calculateMix (some (.num 10))
        (some [{ id := "c1", name := "Mystery", defaultRatePerGallon := .number .nan,
                 mixRate := some "see label" }]) = .ok res ∧
      res.mixItems = [.computed "c1" "Mystery" .nan .nan .nan] ∧
      res.mixItems.map MixItem.hasStoredRate = [true] := by
  refine ⟨{ tankSize := .num 10, sprayVolume := .num 1,
            estimatedCoverageSqFt := .num 10000,
            mixItems := [.computed "c1" "Mystery" .nan .nan .nan],
            mixText := "Mystery: NaN fl oz (~NaN mL) at NaN fl oz/gal" }, ?_, ?_, ?_⟩
  · decide
  · decide
  · decide

/-- C2 as amended: a product whose defaultRatePerGallon is absent,
non-numeric, zero or negative — but not NaN, which the code instead treats
as a stored rate — receives a fallback mixItems entry with hasStoredRate
false and a non-empty labelRate (the mixRate of the product, or the
literal label text when mixRate is absent or empty), and the product is
never an error. -/
theorem claim_C2_amended (g : ℚ) (hg : 0 < g) (chems : List Chemical) (i : Nat)
    (hi : i < chems.length)
    (hv : chems[i].defaultRatePerGallon = .undef ∨
          (∃ s, chems[i].defaultRatePerGallon = .str s) ∨
          (∃ q, chems[i].defaultRatePerGallon = .number (.num q) ∧ q ≤ 0) ∨
          chems[i].defaultRatePerGallon = .number .negInf) :
    ∃ res, calculateMix (some (.num g)) (some chems) = .ok res ∧
      res.mixItems[i]? = some (.fallback chems[i].id chems[i].name
        (jsOrDefault chems[i].mixRate "Check the product label for exact rates.")) ∧
      jsOrDefault chems[i].mixRate "Check the product label for exact rates." ≠ "" := by
  have hne : chems ≠ [] := by
    intro h
    rw [h] at hi
    simp at hi
  refine ⟨_, calculateMix_pos g hg chems hne, ?_, jsOrDefault_label_ne_empty _⟩
  have hget : chems[i]? = some chems[i] := List.getElem?_eq_getElem hi
  rcases hv with hv | ⟨s, hv⟩ | ⟨q, hv, hq⟩ | hv
  · simp [List.getElem?_map, hget, mixItemFor, hv]
  · simp [List.getElem?_map, hget, mixItemFor, hv]
  · simp [List.getElem?_map, hget, mixItemFor, hv, JSNum.leZero, hq]
  · simp [List.getElem?_map, hget, mixItemFor, hv, JSNum.leZero]

/-- Witness for the amended C2: tank size 10 and a single product with no
stored rate and no mixRate text. -/
theorem claim_C2_witness :
    ∃ res, calculateMix (some (.num 10))
        (some [{ id := "chem1", name := "Test Chemical",
                 defaultRatePerGallon := .undef, mixRate := none }]) = .ok res ∧
      res.mixItems[0]? = some (.fallback "chem1" "Test Chemical"
        "Check the product label for exact rates.") ∧
      ("Check the product label for exact rates." : String) ≠ "" :=
  claim_C2_amended 10 (by norm_num)
    [{ id := "chem1", name := "Test Chemical",
       defaultRatePerGallon := .undef, mixRate := none }] 0 (by simp) (.inl rfl)

/-- A rate field that, when it is a number at all, is a finite non-NaN
number (the hypothesis under which the amended C3 holds). -/
def rateFinOrAbsent : JSVal → Bool
  | .number n => n.isFin
  | _ => true

/-- Under a finite rate field the per-chemical mix item carries only
finite non-NaN numbers (for a finite tank size). -/
theorem mixItemFor_numbersFin (g : ℚ) (c : Chemical)
    (h : rateFinOrAbsent c.defaultRatePerGallon = true) :
    (mixItemFor (.num g) c).numbersFin = true := by
  cases hv : c.defaultRatePerGallon with
  | undef => simp [mixItemFor, hv, MixItem.numbersFin]
  | str s => simp [mixItemFor, hv, MixItem.numbersFin]
  | number n =>
    rw [hv] at h
    cases n with
    | num q =>
      by_cases hq : (JSNum.num q).leZero = true <;>
        simp [mixItemFor, hv, hq, MixItem.numbersFin, JSNum.mul, JSNum.isFin, FL_OZ_TO_ML]
    | nan => simp [rateFinOrAbsent, JSNum.isFin] at h
    | posInf => simp [rateFinOrAbsent, JSNum.isFin] at h
    | negInf => simp [rateFinOrAbsent, JSNum.isFin] at h

unseal Rat.mul Rat.inv Rat.add Rat.sub Rat.ofScientific in
/-- C3 counterexample: a NaN defaultRatePerGallon passes both guards of
calculateMix, which then returns a success result whose flOz and ml are
NaN — a success result with non-finite numeric fields. -/
theorem claim_C3_counterexample :
    ∃ res, calculateMix (some (.num 5))
        (some [{ id := "c2", name := "Nameless", defaultRatePerGallon := .number .nan,
                 mixRate := none }]) = .ok res ∧
      mixNumbersFin res = false := by
  refine ⟨{ tankSize := .num 5, sprayVolume := .num 1,
            estimatedCoverageSqFt := .num 5000,
            mixItems := [.computed "c2" "Nameless" .nan .nan .nan],
            mixText := "Nameless: NaN fl oz (~NaN mL) at NaN fl oz/gal" }, ?_, ?_⟩
  · decide
  · decide

/-- C3 as amended: when the numeric inputs are finite — a finite tank size
and, for each product, a rate field that is finite whenever it is a number
at all (for the granular path: a finite area and a finite rate) — every
success result has only finite, non-NaN numeric fields. -/
theorem claim_C3_amended :
    (∀ (g : ℚ) (chems : List Chemical),
      (∀ c ∈ chems, rateFinOrAbsent c.defaultRatePerGallon = true) →
      ∀ res, calculateMix (some (.num g)) (some chems) = .ok res →
        mixNumbersFin res = true) ∧
    (∀ (a r : ℚ) (pn : String) (res : GranularSuccess),
      calculateGranular (some (.num a)) (some (.num r)) pn = .ok res →
        granularNumbersFin res = true) := by
  constructor
  · intro g chems hfin res h
    simp only [calculateMix] at h
    split at h
    · simp at h
    · split at h
      · simp at h
      · simp only [MixResult.ok.injEq] at h
        subst h
        simp only [mixNumbersFin, foldl_push_eq_map, List.nil_append]
        simp only [JSNum.isFin, SPRAY_VOLUME_PER_1000_SQFT, JSNum.mul, Bool.true_and]
        rw [List.all_eq_true]
        intro x hx
        obtain ⟨c, hc, rfl⟩ := List.mem_map.mp hx
        exact mixItemFor_numbersFin g c (hfin c hc)
  · intro a r pn res h
    simp only [calculateGranular] at h
    split at h
    · simp at h
    · split at h
      · simp at h
      · simp only [GranularResult.ok.injEq] at h
        subst h
        simp [granularNumbersFin, JSNum.div1000, JSNum.mul, JSNum.isFin]

unseal Rat.mul Rat.inv Rat.add Rat.sub Rat.ofScientific in
/-- Witness for the amended C3: tank size 10 with a stored rate of 2, and
the granular inputs of the unit tests. -/
theorem claim_C3_witness :
    mixNumbersFin { tankSize := .num 10, sprayVolume := .num 1,
                    estimatedCoverageSqFt := .num 10000,
                    mixItems := [.computed "chem1" "A" (.num 2) (.num 20)
                      (.num (2957 / 5))],
                    mixText := "A: 20.00 fl oz (~591 mL) at 2 fl oz/gal" } = true ∧
    granularNumbersFin { productName := "", areaSqFt := .num 5000,
                         areaThousands := .num 5,
                         ratePerThousandSqFt := .num 4, totalLbs := .num 20 } = true :=
  ⟨claim_C3_amended.1 10
      [{ id := "chem1", name := "A", defaultRatePerGallon := .number (.num 2),
         mixRate := none }] (by decide)
      { tankSize := .num 10, sprayVolume := .num 1,
        estimatedCoverageSqFt := .num 10000,
        mixItems := [.computed "chem1" "A" (.num 2) (.num 20) (.num (2957 / 5))],
        mixText := "A: 20.00 fl oz (~591 mL) at 2 fl oz/gal" } (by decide),
   claim_C3_amended.2 5000 4 ""
      { productName := "", areaSqFt := .num 5000, areaThousands := .num 5,
        ratePerThousandSqFt := .num 4, totalLbs := .num 20 } (by decide)⟩

unseal Rat.mul Rat.inv Rat.add Rat.sub Rat.ofScientific in
/-- C4: for every valid granular input the result echoes the inputs, with
areaThousands = areaSqFt / 1000 and totalLbs = areaThousands * rate, the
product name defaulting to the empty string when omitted; in particular
area 5000 at rate 4 gives areaThousands 5 and totalLbs 20, and area 2500
at rate 3.5 gives totalLbs 8.75. -/
theorem claim_C4 :
    (∀ (a r : ℚ) (pn : String), 0 < a → 0 < r →
      calculateGranular (some (.num a)) (some (.num r)) pn =
        .ok { productName := pn, areaSqFt := .num a, areaThousands := .num (a / 1000),
              ratePerThousandSqFt := .num r, totalLbs := .num (a / 1000 * r) }) ∧
    calculateGranular (some (.num 5000)) (some (.num 4)) =
      .ok { productName := "", areaSqFt := .num 5000, areaThousands := .num 5,
            ratePerThousandSqFt := .num 4, totalLbs := .num 20 } ∧
    calculateGranular (some (.num 2500)) (some (.num (7 / 2))) =
      .ok { productName := "", areaSqFt := .num 2500, areaThousands := .num (5 / 2),
            ratePerThousandSqFt := .num (7 / 2), totalLbs := .num (35 / 4) } := by
  refine ⟨?_, by decide, by decide⟩
  intro a r pn ha hr
  simp [calculateGranular, JSNum.truthy, JSNum.leZero, JSNum.isNaN, JSNum.div1000,
    JSNum.mul, ne_of_gt ha, not_le.mpr ha, ne_of_gt hr, not_le.mpr hr]

/-- Witness for C4 at area 1000, rate 2 and an explicit product name. -/
theorem claim_C4_witness :
    calculateGranular (some (.num 1000)) (some (.num 2)) "Lime" =
      .ok { productName := "Lime", areaSqFt := .num 1000,
            areaThousands := .num (1000 / 1000), ratePerThousandSqFt := .num 2,
            totalLbs := .num (1000 / 1000 * 2) } :=
  claim_C4.1 1000 2 "Lime" (by norm_num) (by norm_num)

/-- C7: calculateGranular validates first-failure-wins: an absent, zero or
negative area yields the area error whatever the rate is; a valid area
with an absent, NaN, zero or negative rate yields the stored-rate error;
neither case is a success shape. -/
theorem claim_C7 :
    (∀ (area rate : Option JSNum) (pn : String),
      (area = none ∨ (∃ q, area = some (.num q) ∧ q ≤ 0) ∨ area = some .negInf) →
      calculateGranular area rate pn = .error "Enter a valid area in square feet.") ∧
    (∀ (a : JSNum) (rate : Option JSNum) (pn : String),
      ((∃ q, a = .num q ∧ 0 < q) ∨ a = .posInf) →
      (rate = none ∨ rate = some .nan ∨ (∃ q, rate = some (.num q) ∧ q ≤ 0) ∨
        rate = some .negInf) →
      calculateGranular (some a) rate pn =
        .error "No stored application rate for the selected product. Please refer to the product label.") := by
  constructor
  · intro area rate pn h
    rcases h with rfl | ⟨q, rfl, hq⟩ | rfl
    · rfl
    · by_cases h0 : q = 0 <;> simp [calculateGranular, JSNum.truthy, JSNum.leZero, h0, hq]
    · rfl
  · intro a rate pn ha hrate
    rcases ha with ⟨qa, rfl, hqa⟩ | rfl
    · have h1 : ¬ qa = 0 := ne_of_gt hqa
      have h2 : ¬ qa ≤ 0 := not_le.mpr hqa
      rcases hrate with rfl | rfl | ⟨q, rfl, hq⟩ | rfl
      · simp [calculateGranular, JSNum.truthy, JSNum.leZero, h1, h2]
      · simp [calculateGranular, JSNum.truthy, JSNum.leZero, JSNum.isNaN, h1, h2]
      · by_cases h0 : q = 0 <;>
          simp [calculateGranular, JSNum.truthy, JSNum.leZero, JSNum.isNaN, h1, h2, h0, hq]
      · simp [calculateGranular, JSNum.truthy, JSNum.leZero, JSNum.isNaN, h1, h2]
    · rcases hrate with rfl | rfl | ⟨q, rfl, hq⟩ | rfl
      · rfl
      · rfl
      · by_cases h0 : q = 0 <;>
          simp [calculateGranular, JSNum.truthy, JSNum.leZero, JSNum.isNaN, h0, hq]
      · rfl

/-- Witness for C7: an absent area beats an (otherwise valid) rate, and a
valid area with rate 0 reports the stored-rate error. -/
theorem claim_C7_witness :
    calculateGranular none (some (.num 5)) "" = .error "Enter a valid area in square feet." ∧
    calculateGranular (some (.num 5000)) (some (.num 0)) "" =
      .error "No stored application rate for the selected product. Please refer to the product label." :=
  ⟨claim_C7.1 none (some (.num 5)) "" (.inl rfl),
   claim_C7.2 (.num 5000) (some (.num 0)) ""
     (.inl ⟨5000, rfl, by norm_num⟩) (.inr (.inr (.inl ⟨0, rfl, le_refl 0⟩)))⟩

/-- C8: on valid inputs mixItems has exactly one entry per input product,
in input order, each entry determined by the product at the same position
(so there is no reordering and no deduplication). -/
theorem claim_C8 (g : ℚ) (hg : 0 < g) (chems : List Chemical) (hne : chems ≠ []) :
    ∃ res, calculateMix (some (.num g)) (some chems) = .ok res ∧
      res.mixItems.length = chems.length ∧
      res.mixItems.map MixItem.id = chems.map Chemical.id ∧
      ∀ i (hi : i < chems.length),
        res.mixItems[i]? = some (mixItemFor (.num g) chems[i]) := by
  refine ⟨_, calculateMix_pos g hg chems hne, by simp, ?_, ?_⟩
  · rw [List.map_map]
    exact List.map_congr_left fun c _ => mixItemFor_id (.num g) c
  · intro i hi
    simp [List.getElem?_map, List.getElem?_eq_getElem hi]

/-- Witness for C8: two identical products (same id) stay two entries. -/
theorem claim_C8_witness :
    ∃ res, calculateMix (some (.num 10))
        (some [{ id := "dup-id", name := "Same", defaultRatePerGallon := .number (.num 1),
                 mixRate := none },
               { id := "dup-id", name := "Same", defaultRatePerGallon := .number (.num 1),
                 mixRate := none }]) = .ok res ∧
      res.mixItems.length = 2 ∧
      res.mixItems.map MixItem.id = ["dup-id", "dup-id"] := by
  obtain ⟨res, h1, h2, h3, _⟩ := claim_C8 10 (by norm_num)
    [{ id := "dup-id", name := "Same", defaultRatePerGallon := .number (.num 1),
       mixRate := none },
     { id := "dup-id", name := "Same", defaultRatePerGallon := .number (.num 1),
       mixRate := none }] (by simp)
  exact ⟨res, h1, h2, h3⟩

/-- C10: the formatter for granular success results emits the product
paragraph exactly when productName is non-empty; with the empty (default)
product name the output is the body alone, which still renders the area,
the rate and the total pounds. -/
theorem claim_C10 (r : GranularSuccess) :
    (r.productName = "" → formatGranularResultsHTML (.ok r) = some (granularBodyHTML r)) ∧
    (r.productName ≠ "" → formatGranularResultsHTML (.ok r) =
        some (productLineHTML r.productName ++ granularBodyHTML r)) ∧
    (∃ t, granularBodyHTML r =
      "\n    <p><strong>Area:</strong> " ++ (r.areaSqFt.toFixed 0 ++ t)) ∧
    (∃ s t, granularBodyHTML r =
      s ++ (" × 1,000 sq ft)</p>\n    <p><strong>Rate:</strong> "
        ++ (r.ratePerThousandSqFt.toStr ++ t))) ∧
    (∃ s, granularBodyHTML r =
      s ++ (" lbs per 1,000 sq ft</p>\n    <p><strong>Total product needed:</strong> "
        ++ (r.totalLbs.toFixed 2 ++ " lbs</p>\n  "))) := by
  refine ⟨fun h => ?_, fun h => ?_, ?_, ?_, ?_⟩
  · simp [formatGranularResultsHTML, h]
  · simp [formatGranularResultsHTML, h, productLineHTML]
  · exact ⟨" sq ft (" ++ (r.areaThousands.toFixed 2
      ++ (" × 1,000 sq ft)</p>\n    <p><strong>Rate:</strong> "
      ++ (r.ratePerThousandSqFt.toStr
      ++ (" lbs per 1,000 sq ft</p>\n    <p><strong>Total product needed:</strong> "
      ++ (r.totalLbs.toFixed 2 ++ " lbs</p>\n  "))))),
      by simp [granularBodyHTML, String.append_assoc]⟩
  · exact ⟨"\n    <p><strong>Area:</strong> " ++ (r.areaSqFt.toFixed 0
      ++ (" sq ft (" ++ r.areaThousands.toFixed 2)),
      " lbs per 1,000 sq ft</p>\n    <p><strong>Total product needed:</strong> "
        ++ (r.totalLbs.toFixed 2 ++ " lbs</p>\n  "),
      by simp [granularBodyHTML, String.append_assoc]⟩
  · exact ⟨"\n    <p><strong>Area:</strong> " ++ (r.areaSqFt.toFixed 0
      ++ (" sq ft (" ++ (r.areaThousands.toFixed 2
      ++ (" × 1,000 sq ft)</p>\n    <p><strong>Rate:</strong> "
      ++ r.ratePerThousandSqFt.toStr)))),
      by simp [granularBodyHTML, String.append_assoc]⟩

/-- Witness for C10 at the granular success record of the unit tests, with
and without a product name. -/
theorem claim_C10_witness :
    formatGranularResultsHTML
        (.ok { productName := "", areaSqFt := .num 5000, areaThousands := .num 5,
               ratePerThousandSqFt := .num 4, totalLbs := .num 20 }) =
      some (granularBodyHTML
        { productName := "", areaSqFt := .num 5000, areaThousands := .num 5,
          ratePerThousandSqFt := .num 4, totalLbs := .num 20 }) ∧
    formatGranularResultsHTML
        (.ok { productName := "Test Product", areaSqFt := .num 5000,
               areaThousands := .num 5, ratePerThousandSqFt := .num 4,
               totalLbs := .num 20 }) =
      some (productLineHTML "Test Product"
        ++ granularBodyHTML
          { productName := "Test Product", areaSqFt := .num 5000,
            areaThousands := .num 5, ratePerThousandSqFt := .num 4,
            totalLbs := .num 20 }) :=
  ⟨(claim_C10 _).1 rfl, (claim_C10 _).2.1 (by decide)⟩
